import Mathlib

/-!
Verification of the `pb` clipboard-sharing tool.

This file shallowly embeds the parts of the repository that the claims
are about:

* the server's request-authentication middleware (`authMiddleware`) and
  authorized-keys loading (`loadAuthorizedKeys`) from the `server` package;
* the client's signed-request construction (`doHTTPSRequest`) and private
  key discovery (`findPrivateKey`, `getSigner`) from the `commands` package;
* the clipboard manager's failover state machine (`Copy`, `Paste`,
  `switchToFallback`, `switchToSystem`, `UseInMemoryClipboard`,
  `UseCliClipboard`, the health-check task) from the `clipboard` package;
* the CLI clipboard tool probing (`initCLIClipboard`, `ReadClipboardCLI`,
  `WriteClipboardCLI`) from `clipboard_cli.go`.

Go byte slices and Go strings (which are byte sequences) are modelled as
`List Nat`.  The external cryptographic libraries (`crypto/sha256`,
`golang.org/x/crypto/ssh`, `encoding/base64`) are not code of this
repository; they are abstracted as an `SSHCrypto` interface whose fields
carry the standard functional contracts of those libraries (encode/decode
round trips, signature correctness and soundness in the usual symbolic
Dolev-Yao style, collision-freedom of the hash).  A small executable
instance `toyCrypto` witnesses that the interface is satisfiable and lets
the claim theorems be evaluated on concrete inputs.
-/

namespace PB

/-- Go bytes / Go strings are byte sequences. -/
abbrev Bytes := List Nat

/-! ## Symbolic model of the external crypto libraries

`SSHCrypto` packages the operations of `crypto/sha256`,
`golang.org/x/crypto/ssh` and `encoding/base64` that the repository calls,
together with the functional laws those libraries guarantee. -/

structure SSHCrypto where
  /-- `ssh.PublicKey` -/
  PubKey : Type
  /-- `ssh.Signer` (wraps the private key; exposes `PublicKey()` and `Sign`) -/
  Signer : Type
  /-- `ssh.Signature` (the structured signature value) -/
  SigStruct : Type
  /-- `sha256.Sum256` -/
  sha256 : Bytes → Bytes
  /-- `ssh.FingerprintSHA256` -/
  fingerprintSHA256 : PubKey → Bytes
  /-- `signer.PublicKey()` -/
  publicKey : Signer → PubKey
  /-- `signer.Sign(rand, digest)`: deterministic modulo the scheme's own
  randomness, which the spec abstracts away. -/
  sign : Signer → Bytes → SigStruct
  /-- `pubKey.Verify(digest, sig)`, `true` = no error. -/
  verify : PubKey → Bytes → SigStruct → Bool
  /-- `ssh.Marshal` on a signature value -/
  sshMarshal : SigStruct → Bytes
  /-- `ssh.Unmarshal` into an `ssh.Signature`; `none` = unmarshal error. -/
  sshUnmarshalSig : Bytes → Option SigStruct
  /-- `base64.StdEncoding.EncodeToString` -/
  b64encode : Bytes → Bytes
  /-- `base64.StdEncoding.DecodeString`; `none` = decode error. -/
  b64decode : Bytes → Option Bytes
  /-- One line of an authorized-keys file either parses to a public key or
  is malformed (`ssh.ParseAuthorizedKey`, per line). -/
  parseAuthLine : Bytes → Option PubKey
  /-- base64 decoding inverts encoding. -/
  b64_roundtrip : ∀ l, b64decode (b64encode l) = some l
  /-- base64 of a non-empty input is non-empty. -/
  b64encode_ne_nil : ∀ l, l ≠ [] → b64encode l ≠ []
  /-- unmarshalling inverts marshalling. -/
  marshal_roundtrip : ∀ s, sshUnmarshalSig (sshMarshal s) = some s
  /-- a marshalled signature is never the empty byte string. -/
  marshal_ne_nil : ∀ s, sshMarshal s ≠ []
  /-- a well-formed signature verifies (signature-scheme correctness). -/
  verify_sign : ∀ k d, verify (publicKey k) d (sign k d) = true
  /-- a signature over digest `d` verifies only over `d`
  (symbolic unforgeability). -/
  verify_sound : ∀ k d d', verify (publicKey k) d' (sign k d) = true → d' = d
  /-- symbolic collision-freedom of SHA-256. -/
  sha256_inj : ∀ a b, sha256 a = sha256 b → a = b
  /-- `ssh.FingerprintSHA256` always starts with `"SHA256:"`,
  so it is never empty. -/
  fingerprint_ne_nil : ∀ pk, fingerprintSHA256 pk ≠ []

/-! ## The server's auth middleware (`authMiddleware`, part of package `server`)

A request carries two header fields and a body.  `r.Header.Get` returns the
empty string when the header is absent, so an absent header and an empty
header coincide, as in Go. -/

structure Request where
  fingerprintHeader : Bytes
  signatureHeader : Bytes
  body : Bytes
deriving DecidableEq, Repr

/-- Outcome of the middleware: either an `http.Error` with a status code and
message, or the request is forwarded to the wrapped handler (with its body
reconstituted). -/
inductive AuthResult where
  | rejected (status : Nat) (msg : String)
  | forwarded (r : Request)
deriving DecidableEq, Repr

/-- Go-map lookup for a fingerprint-keyed store. -/
def lookupKey {α : Type _} : List (Bytes × α) → Bytes → Option α
  | [], _ => none
  | (k, v) :: rest, fp => if k = fp then some v else lookupKey rest fp

/-- Go-map insert: overwrite the binding if the key is present,
otherwise append. -/
def mapInsert {α : Type _} : List (Bytes × α) → Bytes → α → List (Bytes × α)
  | [], k, v => [(k, v)]
  | (k', v') :: rest, k, v =>
      if k' = k then (k, v) :: rest else (k', v') :: mapInsert rest k v

/-- `authMiddleware` from the `server` package.  The `io.ReadAll` error
branch (a 500 on a transport-level read failure) is an IO condition with no
pure counterpart and is not modelled; reading the body always succeeds and
yields `r.body`. -/
def authMiddleware (C : SSHCrypto) (authorizedKeys : List (Bytes × C.PubKey))
    (r : Request) : AuthResult :=
  if r.fingerprintHeader = [] ∨ r.signatureHeader = [] then
    .rejected 401 "Missing authentication headers"
  else
    match lookupKey authorizedKeys r.fingerprintHeader with
    | none => .rejected 401 "Unknown public key"
    | some pubKey =>
      -- body, err := io.ReadAll(r.Body); r.Body = NopCloser(bytes.NewBuffer(body))
      let body := r.body
      let hash := C.sha256 body
      match C.b64decode r.signatureHeader with
      | none => .rejected 400 "Invalid signature encoding"
      | some signatureBytes =>
        match C.sshUnmarshalSig signatureBytes with
        | none => .rejected 400 "Invalid SSH signature format"
        | some sshSig =>
          if C.verify pubKey hash sshSig then
            .forwarded { r with body := body }
          else
            .rejected 401 "Signature verification failed"

/-! ## The client's signed request (`doHTTPSRequest`, package `commands`) -/

/-- The request that `doHTTPSRequest` builds for payload `data`:
body `data`, fingerprint header `ssh.FingerprintSHA256(signer.PublicKey())`,
signature header `base64(ssh.Marshal(signer.Sign(rand, sha256(data))))`. -/
def clientSignedRequest (C : SSHCrypto) (signer : C.Signer) (data : Bytes) :
    Request :=
  { fingerprintHeader := C.fingerprintSHA256 (C.publicKey signer)
    signatureHeader := C.b64encode (C.sshMarshal (C.sign signer (C.sha256 data)))
    body := data }

/-! ## Loading the authorized-keys file (`loadAuthorizedKeys`, package `server`)

The file content is modelled as its list of lines (the ssh library splits
the byte stream on newlines).  `ssh.ParseAuthorizedKey` scans forward for
the first line that parses to a key: malformed lines are skipped inside the
library; it returns the key together with the remaining lines, or an error
(with an empty remainder) when no line of the remaining input parses. -/

/-- `ssh.ParseAuthorizedKey` over a list of lines: first parseable line's
key plus the rest; `none` when no key is found in the whole input. -/
def parseAuthorizedKey (C : SSHCrypto) : List Bytes → Option (C.PubKey × List Bytes)
  | [] => none
  | l :: rest =>
    match C.parseAuthLine l with
    | some k => some (k, rest)
    | none => parseAuthorizedKey C rest

/-- Result of `os.ReadFile` as `loadAuthorizedKeys` distinguishes it:
the file is absent, some other filesystem error occurred, or the content
was read (given as its lines). -/
inductive FileRead where
  | notExist
  | ioErr (e : String)
  | content (lines : List Bytes)

/-- The `for len(bytes) > 0` loop of `loadAuthorizedKeys`.  On a parse
error the library returns an empty remainder, so the loop ends with the
accumulated map.  The loop is given `lines.length` as fuel: every
successful parse consumes at least one line, so the fuel never runs out
before the input is exhausted. -/
def loadLoop (C : SSHCrypto) :
    Nat → List Bytes → List (Bytes × C.PubKey) → List (Bytes × C.PubKey)
  | 0, _, acc => acc
  | fuel + 1, lines, acc =>
    match parseAuthorizedKey C lines with
    | none => acc
    | some (pubKey, rest) =>
        loadLoop C fuel rest (mapInsert acc (C.fingerprintSHA256 pubKey) pubKey)

/-- `loadAuthorizedKeys` from the `server` package: a missing file yields
an empty map and no error; any other read error is returned; otherwise the
content is scanned, skipping malformed lines, keying each parsed public key
by its SHA-256 fingerprint. -/
def loadAuthorizedKeys (C : SSHCrypto) (file : FileRead) :
    Except String (List (Bytes × C.PubKey)) :=
  match file with
  | .notExist => .ok []
  | .ioErr e => .error e
  | .content lines => .ok (loadLoop C lines.length lines [])

/-! ## Client-side key discovery (`findPrivateKey` / `getSigner`,
package `commands`)

The filesystem is abstracted as an existence predicate and a read
function over paths (Lean `String`s). -/

/-- The fixed candidate file names `findPrivateKey` probes under `~/.ssh`. -/
def defaultKeys : List String := ["id_ed25519", "id_ecdsa", "id_rsa"]

/-- The program-specific key location, `~/.config/pb/id_ed25519`. -/
def programKeyPath (home : String) : String :=
  home ++ "/.config/pb/id_ed25519"

/-- A default SSH key path, `~/.ssh/<name>`. -/
def sshKeyPath (home : String) (name : String) : String :=
  home ++ "/.ssh/" ++ name

/-- The error message `findPrivateKey` fails with when no candidate exists. -/
def noKeyError : String :=
  "no private key found. Please run 'pb key-gen' to create a new key, or specify one with the --key flag"

/-- The `for _, keyFile := range defaultKeys` loop: first existing
candidate wins. -/
def findFirstExisting (fexists : String → Bool) (home : String) :
    List String → Except String String
  | [] => .error noKeyError
  | name :: rest =>
    if fexists (sshKeyPath home name) then .ok (sshKeyPath home name)
    else findFirstExisting fexists home rest

/-- `findPrivateKey`: the program-specific key if it exists, otherwise the
first existing conventional SSH key, otherwise the "no usable key" error.
Existence is the only test (`os.Stat`); parseability is not probed here. -/
def findPrivateKey (fexists : String → Bool) (home : String) :
    Except String String :=
  if fexists (programKeyPath home) then .ok (programKeyPath home)
  else findFirstExisting fexists home defaultKeys

/-- `getSigner`: the `--key` flag (empty string = not supplied) wins
unconditionally; otherwise `findPrivateKey` picks a path; the chosen file
is then read and parsed, and a read or parse failure is returned as an
error without trying any further candidate. -/
def getSigner (C : SSHCrypto) (keyPath : String) (fexists : String → Bool)
    (readFile : String → Option Bytes) (parsePrivateKey : Bytes → Option C.Signer)
    (home : String) : Except String C.Signer :=
  match (if keyPath ≠ "" then .ok keyPath else findPrivateKey fexists home :
      Except String String) with
  | .error e => .error e
  | .ok pathToKey =>
    match readFile pathToKey with
    | none => .error ("could not read private key at " ++ pathToKey)
    | some privateKeyBytes =>
      match parsePrivateKey privateKeyBytes with
      | none => .error "could not parse private key"
      | some signer => .ok signer

/-- Observable outcome of `doHTTPSRequest`: either it fails before any
network activity (signer could not be obtained), or it sends the signed
request it built. -/
inductive ClientOutcome (C : SSHCrypto) where
  | failedBeforeNetwork (e : String)
  | sentRequest (r : Request)

/-- The request-building part of `doHTTPSRequest`: obtain a signer (fatal,
pre-network, on failure), then sign the SHA-256 digest of the payload and
attach the fingerprint and base64 signature headers. -/
def doHTTPSRequest (C : SSHCrypto) (keyPath : String) (fexists : String → Bool)
    (readFile : String → Option Bytes) (parsePrivateKey : Bytes → Option C.Signer)
    (home : String) (data : Bytes) : ClientOutcome C :=
  match getSigner C keyPath fexists readFile parsePrivateKey home with
  | .error e => .failedBeforeNetwork e
  | .ok signer => .sentRequest (clientSignedRequest C signer data)

/-! ## The clipboard manager (`pb/clipboard`, `clipboard.go`)

State of the manager (`clipboardState`) together with the environment it
interacts with.  The active backend is identified by which instance the
`active` pointer holds: the platform primary (`systemClipboard` on desktop),
the CLI-tool backend (`cliClipboard`), or the manager's dedicated in-memory
`fallback` instance.  The OS clipboard that the primary and CLI backends
target is modelled as a byte buffer `primaryData`; whether a given call to
it responds, errors or hangs past the 2-second timeout is an environment
choice, passed to `Copy`/`Paste` as a `PrimaryResp` parameter.

Running health-check tasks are modelled by the list of their failure-episode
identifiers: `switchToFallback` running with `usingFallback = false` begins
failure episode `episodes + 1` and spawns that episode's task. -/

inductive ActiveKind where
  | primaryK
  | cliK
  | fallbackK
deriving DecidableEq, Repr

structure ClipState where
  activeK : ActiveKind
  usingFallback : Bool
  /-- the `data` buffer of the dedicated `inMemoryClipboard` fallback -/
  fallbackData : Bytes
  /-- contents of the OS clipboard the primary/CLI backends target -/
  primaryData : Bytes
  /-- episode ids of the currently running health-check tasks -/
  tasks : List Nat
  /-- number of failure episodes started so far -/
  episodes : Nat
deriving DecidableEq, Repr

/-- How the primary backend behaves on one call: it returns (successfully
or with an error) within the 2-second timeout, or it hangs past it. -/
inductive PrimaryResp where
  | ok
  | err (e : String)
  | hang
deriving DecidableEq, Repr

/-- `switchToFallback`: under the lock, remember `wasUsingFallback`, point
`active` at the fallback instance, set the flag; spawn `startHealthCheck`
only when the manager was not already on the fallback. -/
def switchToFallback (s : ClipState) : ClipState :=
  let s' := { s with activeK := .fallbackK, usingFallback := true }
  if s.usingFallback then s'
  else { s' with episodes := s.episodes + 1, tasks := s.tasks ++ [s.episodes + 1] }

/-- `switchToSystem`: point `active` at a fresh primary instance and clear
the flag (called only from inside the health-check task, which terminates
right after; the caller removes its task id). -/
def switchToSystem (s : ClipState) : ClipState :=
  { s with activeK := .primaryK, usingFallback := false }

/-- `UseInMemoryClipboard`: manual switch to the fallback instance. -/
def UseInMemoryClipboard (s : ClipState) : ClipState :=
  { s with activeK := .fallbackK, usingFallback := true }

/-- `UseCliClipboard`: manual switch to the CLI-tool backend (a distinct
instance from the fallback), clearing the flag. -/
def UseCliClipboard (s : ClipState) : ClipState :=
  { s with activeK := .cliK, usingFallback := false }

/-- `Copy(data)`: on the fallback path, write the in-memory buffer with no
timeout machinery; otherwise run the active (OS-targeting) backend under
the 2-second timeout — on a hang, switch to the fallback and retry the
write against `state.fallback`, reporting success. -/
def Copy (s : ClipState) (resp : PrimaryResp) (data : Bytes) :
    Except String Unit × ClipState :=
  if s.usingFallback then
    (.ok (), { s with fallbackData := data })
  else
    match resp with
    | .ok => (.ok (), { s with primaryData := data })
    | .err e => (.error e, s)
    | .hang =>
      let s' := switchToFallback s
      (.ok (), { s' with fallbackData := data })

/-- `Paste()`: on the fallback path, read the in-memory buffer with no
timeout machinery; otherwise read the active backend under the timeout —
on a hang, switch to the fallback and return `state.fallback.Paste()`. -/
def Paste (s : ClipState) (resp : PrimaryResp) :
    Except String Bytes × ClipState :=
  if s.usingFallback then
    (.ok s.fallbackData, s)
  else
    match resp with
    | .ok => (.ok s.primaryData, s)
    | .err e => (.error e, s)
    | .hang =>
      let s' := switchToFallback s
      (.ok s'.fallbackData, s')

/-- One observable transition of the manager.  `copy`/`paste` are the public
operations (with the environment's choice of primary behaviour and, for
`copy`, the data); `useInMemory`/`useCli` are the manual overrides;
`recover` is a health-check task observing a successful responsiveness
probe, switching back to the primary and terminating itself; `taskStop` is
a task terminating on the `healthCheckDone` signal. -/
inductive ClipStep : ClipState → ClipState → Prop where
  | copy (s : ClipState) (resp : PrimaryResp) (data : Bytes) :
      ClipStep s (Copy s resp data).2
  | paste (s : ClipState) (resp : PrimaryResp) :
      ClipStep s (Paste s resp).2
  | useInMemory (s : ClipState) : ClipStep s (UseInMemoryClipboard s)
  | useCli (s : ClipState) : ClipStep s (UseCliClipboard s)
  | recover (s : ClipState) (t : Nat) (ht : t ∈ s.tasks) :
      ClipStep s { switchToSystem s with tasks := s.tasks.erase t }
  | taskStop (s : ClipState) (t : Nat) (ht : t ∈ s.tasks) :
      ClipStep s { s with tasks := s.tasks.erase t }

/-- Initial states, as established by `Init`/`initPlatformClipboard`: the
fallback buffer is fresh (`nil`), no task runs, and the platform probe
either selects the system clipboard, the CLI tools, or — when neither is
available — the in-memory fallback itself. -/
def ClipInit (s : ClipState) : Prop :=
  s.fallbackData = [] ∧ s.tasks = [] ∧ s.episodes = 0 ∧
    ((s.activeK = .primaryK ∧ s.usingFallback = false) ∨
     (s.activeK = .cliK ∧ s.usingFallback = false) ∨
     (s.activeK = .fallbackK ∧ s.usingFallback = true))

/-- A state the manager can reach from some initial state. -/
inductive ClipReach : ClipState → Prop where
  | init (s : ClipState) (h : ClipInit s) : ClipReach s
  | step (s s' : ClipState) (h : ClipReach s) (hs : ClipStep s s') : ClipReach s'

/-! ## CLI clipboard tools (`clipboard_cli.go`) -/

def xselPasteArgs : List String := ["xsel", "--output", "--clipboard"]
def xselCopyArgs : List String := ["xsel", "--input", "--clipboard"]
def xclipPasteArgs : List String := ["xclip", "-out", "-selection", "clipboard"]
def xclipCopyArgs : List String := ["xclip", "-in", "-selection", "clipboard"]
def wlpasteArgs : List String := ["wl-paste", "--no-newline"]
def wlcopyArgs : List String := ["wl-copy"]
def termuxPasteArgs : List String := ["termux-clipboard-get"]
def termuxCopyArgs : List String := ["termux-clipboard-set"]

def clipboardUnavailableErr : String :=
  "no clipboard utilities available: install xsel, xclip, wl-clipboard, or enable Termux:API"

/-- The package-level variables that `initCLIClipboard` sets. -/
structure CLIState where
  CLIClipboardAvailable : Bool
  pasteCmdArgs : List String
  copyCmdArgs : List String
deriving DecidableEq, Repr

/-- `initCLIClipboard`: probe for the tools in priority order (Wayland pair
first when a Wayland session is detected, then xclip, then xsel, then the
Termux pair); the first hit sets both argument lists and the availability
flag; no hit leaves the zero values (`false`, empty lists). -/
def initCLIClipboard (waylandDisplaySet : Bool) (hasCommand : String → Bool) :
    CLIState :=
  if waylandDisplaySet ∧ hasCommand "wl-copy" ∧ hasCommand "wl-paste" then
    ⟨true, wlpasteArgs, wlcopyArgs⟩
  else if hasCommand "xclip" then
    ⟨true, xclipPasteArgs, xclipCopyArgs⟩
  else if hasCommand "xsel" then
    ⟨true, xselPasteArgs, xselCopyArgs⟩
  else if hasCommand "termux-clipboard-set" ∧ hasCommand "termux-clipboard-get" then
    ⟨true, termuxPasteArgs, termuxCopyArgs⟩
  else
    ⟨false, [], []⟩

/-- What a CLI read/write amounts to before process I/O: the command name
and argument vector handed to `exec.Command`.  Indexing `args[0]` on an
empty slice would panic in Go; that outcome is made explicit. -/
inductive CLICommand where
  | unavailable (e : String)
  | panicIndexOutOfRange
  | exec (name : String) (args : List String)
deriving DecidableEq, Repr

/-- `ReadClipboardCLI` up to the `exec.Command(pasteCmdArgs[0],
pasteCmdArgs[1:]...)` call. -/
def ReadClipboardCLI (st : CLIState) : CLICommand :=
  if st.CLIClipboardAvailable = false then .unavailable clipboardUnavailableErr
  else
    match st.pasteCmdArgs with
    | [] => .panicIndexOutOfRange
    | name :: rest => .exec name rest

/-- `WriteClipboardCLI` up to the `exec.Command(copyCmdArgs[0],
copyCmdArgs[1:]...)` call. -/
def WriteClipboardCLI (st : CLIState) : CLICommand :=
  if st.CLIClipboardAvailable = false then .unavailable clipboardUnavailableErr
  else
    match st.copyCmdArgs with
    | [] => .panicIndexOutOfRange
    | name :: rest => .exec name rest

/-! ## An executable instance of the crypto interface

`toyCrypto` is a small symbolic scheme satisfying every law of
`SSHCrypto`; it exists so that the claim theorems can be evaluated at
concrete inputs.  Keys are naturals, a signature is the signing key paired
with the signed digest, and verification is equality with the expected
pair. -/

def toyCrypto : SSHCrypto where
  PubKey := Nat
  Signer := Nat
  SigStruct := Nat × Bytes
  sha256 := fun l => 0 :: l
  fingerprintSHA256 := fun pk => [pk]
  publicKey := fun k => k
  sign := fun k d => (k, d)
  verify := fun pk d s => decide (s = (pk, d))
  sshMarshal := fun s => s.1 :: s.2
  sshUnmarshalSig := fun l =>
    match l with
    | [] => none
    | k :: d => some (k, d)
  b64encode := fun l => 0 :: l
  b64decode := fun l =>
    match l with
    | 0 :: r => some r
    | _ => none
  parseAuthLine := fun l =>
    match l with
    | 42 :: k :: _ => some k
    | _ => none
  b64_roundtrip := fun _ => rfl
  b64encode_ne_nil := fun l _ => by simp
  marshal_roundtrip := fun _ => rfl
  marshal_ne_nil := fun _ => by simp
  verify_sign := fun k d => by simp
  verify_sound := fun k d d' h => by
    simp only [decide_eq_true_eq, Prod.mk.injEq] at h
    exact h.2.symm
  sha256_inj := fun a b h => by simpa using h
  fingerprint_ne_nil := fun pk => by simp

/-- Signers of the toy scheme are naturals. -/
def toySigner (n : Nat) : toyCrypto.Signer := n

instance : DecidableEq toyCrypto.PubKey := instDecidableEqNat

instance : DecidableEq toyCrypto.Signer := instDecidableEqNat

/-- Public keys of the toy scheme are naturals. -/
def toyPubKey (n : Nat) : toyCrypto.PubKey := n

/-- A one-key trust store for the toy scheme: signer `3`'s public key under
its fingerprint. -/
def toyStore : List (Bytes × toyCrypto.PubKey) := [([3], toyPubKey 3)]

/-! Concrete toy filesystem for the key-discovery theorems: the
program-specific key exists but does not parse, while `~/.ssh/id_ed25519`
exists and parses. -/

def cexHome : String := "/home/u"

def cexExists : String → Bool := fun p =>
  p = programKeyPath cexHome ∨ p = sshKeyPath cexHome "id_ed25519"

def cexReadFile : String → Option Bytes := fun p =>
  if p = programKeyPath cexHome then some [99]
  else if p = sshKeyPath cexHome "id_ed25519" then some [1]
  else none

/-- Toy private-key parser: only the byte string `[1]` parses
(to signer `7`). -/
def toyParsePrivateKey : Bytes → Option Nat := fun b =>
  match b with
  | [1] => some 7
  | _ => none

/-- A toy filesystem with no key file at all. -/
def emptyFS : String → Bool := fun _ => false

/-- A concrete manager state on the primary backend, with stale fallback
contents `[9]`. -/
def cexClipState : ClipState :=
  { activeK := .primaryK, usingFallback := false, fallbackData := [9],
    primaryData := [0], tasks := [], episodes := 0 }

/-- A concrete initial manager state on the primary backend. -/
def initClipState : ClipState :=
  { activeK := .primaryK, usingFallback := false, fallbackData := [],
    primaryData := [7], tasks := [], episodes := 0 }

/-- The invariant of the manager's state maintained by every transition:
the fallback flag tracks whether the active pointer is the fallback
instance; running health-check tasks carry pairwise distinct failure
episode ids, all of them already-started episodes. -/
def ClipInv (s : ClipState) : Prop :=
  (s.usingFallback = true ↔ s.activeK = .fallbackK) ∧
  s.tasks.Nodup ∧
  ∀ t ∈ s.tasks, t ≤ s.episodes

/-! # Theorems -/

/-- C1: a request built by the client — body `P`, a fingerprint header
naming `K`, and a base64-encoded SSH-marshalled signature produced by `K`
over the SHA-256 digest of `P` — passes the auth middleware and is
forwarded to the wrapped handler whenever `K`'s fingerprint is in the trust
store; and since the digest the gate verifies is SHA-256 of the received
body, the same request with any body other than `P` is rejected 401. -/
theorem c1_client_signed_request_verifies (C : SSHCrypto)
    (store : List (Bytes × C.PubKey)) (K : C.Signer) (P : Bytes)
    (hK : lookupKey store (C.fingerprintSHA256 (C.publicKey K)) =
      some (C.publicKey K)) :
    authMiddleware C store (clientSignedRequest C K P) =
      .forwarded (clientSignedRequest C K P) ∧
    ∀ P', P' ≠ P →
      authMiddleware C store { clientSignedRequest C K P with body := P' } =
        .rejected 401 "Signature verification failed" := by
  have hfp := C.fingerprint_ne_nil (C.publicKey K)
  have hsig : C.b64encode (C.sshMarshal (C.sign K (C.sha256 P))) ≠ [] :=
    C.b64encode_ne_nil _ (C.marshal_ne_nil _)
  constructor
  · simp [authMiddleware, clientSignedRequest, hfp, hsig, hK,
      C.b64_roundtrip, C.marshal_roundtrip, C.verify_sign]
  · intro P' hP'
    have hv : C.verify (C.publicKey K) (C.sha256 P') (C.sign K (C.sha256 P)) =
        false := by
      cases hvb : C.verify (C.publicKey K) (C.sha256 P') (C.sign K (C.sha256 P)) with
      | false => rfl
      | true => exact absurd (C.sha256_inj _ _ (C.verify_sound _ _ _ hvb)) hP'
    simp [authMiddleware, clientSignedRequest, hfp, hsig, hK,
      C.b64_roundtrip, C.marshal_roundtrip, hv]

/-- Witness for C1 at the toy scheme: signer `3`, payload `[1, 2]`,
tampered body `[5]`. -/
theorem c1_witness :
    lookupKey toyStore (toyCrypto.fingerprintSHA256 (toyCrypto.publicKey (toySigner 3))) =
      some (toyCrypto.publicKey (toySigner 3)) ∧
    authMiddleware toyCrypto toyStore (clientSignedRequest toyCrypto (toySigner 3) [1, 2]) =
      .forwarded (clientSignedRequest toyCrypto (toySigner 3) [1, 2]) ∧
    authMiddleware toyCrypto toyStore
        { clientSignedRequest toyCrypto (toySigner 3) [1, 2] with body := [5] } =
      .rejected 401 "Signature verification failed" :=
  ⟨by decide,
   (c1_client_signed_request_verifies toyCrypto toyStore (toySigner 3) [1, 2] (by decide)).1,
   (c1_client_signed_request_verifies toyCrypto toyStore (toySigner 3) [1, 2] (by decide)).2
     [5] (by decide)⟩

/-- C3: the auth middleware rejects without reaching the wrapped handler,
with exactly these statuses: 401 when the fingerprint or signature header
is absent; 401 "Unknown public key" when the fingerprint is not in the
trust store, whatever the signature header holds; 400 when the signature
fails base64 decoding or SSH unmarshalling; 401 when verification over the
payload digest fails. -/
theorem c3_authgate_rejections (C : SSHCrypto)
    (store : List (Bytes × C.PubKey)) (r : Request) :
    ((r.fingerprintHeader = [] ∨ r.signatureHeader = []) →
      authMiddleware C store r = .rejected 401 "Missing authentication headers") ∧
    (r.fingerprintHeader ≠ [] → r.signatureHeader ≠ [] →
      lookupKey store r.fingerprintHeader = none →
      authMiddleware C store r = .rejected 401 "Unknown public key") ∧
    (∀ pk, r.fingerprintHeader ≠ [] → r.signatureHeader ≠ [] →
      lookupKey store r.fingerprintHeader = some pk →
      C.b64decode r.signatureHeader = none →
      authMiddleware C store r = .rejected 400 "Invalid signature encoding") ∧
    (∀ pk sigBytes, r.fingerprintHeader ≠ [] → r.signatureHeader ≠ [] →
      lookupKey store r.fingerprintHeader = some pk →
      C.b64decode r.signatureHeader = some sigBytes →
      C.sshUnmarshalSig sigBytes = none →
      authMiddleware C store r = .rejected 400 "Invalid SSH signature format") ∧
    (∀ pk sigBytes sig, r.fingerprintHeader ≠ [] → r.signatureHeader ≠ [] →
      lookupKey store r.fingerprintHeader = some pk →
      C.b64decode r.signatureHeader = some sigBytes →
      C.sshUnmarshalSig sigBytes = some sig →
      C.verify pk (C.sha256 r.body) sig = false →
      authMiddleware C store r = .rejected 401 "Signature verification failed") := by
  refine ⟨fun h => by simp [authMiddleware, h], ?_, ?_, ?_, ?_⟩
  · intro h1 h2 hl
    simp [authMiddleware, h1, h2, hl]
  · intro pk h1 h2 hl hd
    simp [authMiddleware, h1, h2, hl, hd]
  · intro pk sigBytes h1 h2 hl hd hu
    simp [authMiddleware, h1, h2, hl, hd, hu]
  · intro pk sigBytes sig h1 h2 hl hd hu hv
    simp [authMiddleware, h1, h2, hl, hd, hu, hv]

/-- Witness for C3 at the toy scheme: an unknown fingerprint with a
perfectly valid signature is still rejected 401. -/
theorem c3_witness :
    (([7] : Bytes) ≠ [] ∧
     toyCrypto.b64encode (toyCrypto.sshMarshal (toyCrypto.sign (toySigner 7) (toyCrypto.sha256 [1]))) ≠ [] ∧
     lookupKey toyStore ([7] : Bytes) = none) ∧
    authMiddleware toyCrypto toyStore
      { fingerprintHeader := [7]
        signatureHeader :=
          toyCrypto.b64encode (toyCrypto.sshMarshal (toyCrypto.sign (toySigner 7) (toyCrypto.sha256 [1])))
        body := [1] } = .rejected 401 "Unknown public key" :=
  ⟨⟨by decide, by decide, by decide⟩,
   (c3_authgate_rejections toyCrypto toyStore _).2.1 (by decide) (by decide) (by decide)⟩

/-- C9: whenever the auth middleware forwards, the forwarded request is the
received request unchanged — in particular the reconstituted body the
wrapped handler reads is byte-for-byte the original body — and the digest
that was verified on that path is SHA-256 of that entire body. -/
theorem c9_forward_preserves_request (C : SSHCrypto)
    (store : List (Bytes × C.PubKey)) (r r' : Request)
    (h : authMiddleware C store r = .forwarded r') :
    r' = r ∧ r'.body = r.body ∧
    ∃ pk sigBytes sig,
      lookupKey store r.fingerprintHeader = some pk ∧
      C.b64decode r.signatureHeader = some sigBytes ∧
      C.sshUnmarshalSig sigBytes = some sig ∧
      C.verify pk (C.sha256 r.body) sig = true := by
  by_cases h1 : r.fingerprintHeader = [] ∨ r.signatureHeader = []
  · simp [authMiddleware, h1] at h
  · cases h2 : lookupKey store r.fingerprintHeader with
    | none => simp [authMiddleware, h1, h2] at h
    | some pk =>
      cases h3 : C.b64decode r.signatureHeader with
      | none => simp [authMiddleware, h1, h2, h3] at h
      | some sigBytes =>
        cases h4 : C.sshUnmarshalSig sigBytes with
        | none => simp [authMiddleware, h1, h2, h3, h4] at h
        | some sig =>
          cases h5 : C.verify pk (C.sha256 r.body) sig with
          | false => simp [authMiddleware, h1, h2, h3, h4, h5] at h
          | true =>
            simp [authMiddleware, h1, h2, h3, h4, h5] at h
            have hr : r' = r := h.symm
            exact ⟨hr, by rw [hr], pk, sigBytes, sig, rfl, rfl, h4, h5⟩


/-- Witness for C9: the toy client request is forwarded unchanged. -/
theorem c9_witness :
    authMiddleware toyCrypto toyStore (clientSignedRequest toyCrypto (toySigner 3) [1, 2]) =
      .forwarded (clientSignedRequest toyCrypto (toySigner 3) [1, 2]) ∧
    clientSignedRequest toyCrypto (toySigner 3) [1, 2] = clientSignedRequest toyCrypto (toySigner 3) [1, 2] :=
  ⟨by decide,
   (c9_forward_preserves_request toyCrypto toyStore
     (clientSignedRequest toyCrypto (toySigner 3) [1, 2])
     (clientSignedRequest toyCrypto (toySigner 3) [1, 2]) (by decide)).1⟩

/-- C4: loading the authorized-keys file never fails on its content (every
read content yields `.ok`); a missing file yields an empty store and no
error; and a file of two valid key lines around one garbage line yields a
store of exactly the two keys, keyed by SHA-256 fingerprint. -/
theorem c4_load_authorized_keys_tolerant (C : SSHCrypto)
    (l1 l2 g : Bytes) (k1 k2 : C.PubKey)
    (h1 : C.parseAuthLine l1 = some k1) (h2 : C.parseAuthLine l2 = some k2)
    (hg : C.parseAuthLine g = none)
    (hfp : C.fingerprintSHA256 k1 ≠ C.fingerprintSHA256 k2) :
    (∀ lines, ∃ store, loadAuthorizedKeys C (.content lines) = .ok store) ∧
    loadAuthorizedKeys C .notExist = .ok [] ∧
    loadAuthorizedKeys C (.content [l1, g, l2]) =
      .ok [(C.fingerprintSHA256 k1, k1), (C.fingerprintSHA256 k2, k2)] ∧
    [(C.fingerprintSHA256 k1, k1), (C.fingerprintSHA256 k2, k2)].length = 2 := by
  refine ⟨fun lines => ⟨_, rfl⟩, rfl, ?_, rfl⟩
  simp [loadAuthorizedKeys, loadLoop, parseAuthorizedKey, h1, h2, hg, mapInsert, hfp]

/-- Witness for C4: at the toy scheme, lines `[42, 1]` and `[42, 2]` parse,
`[7]` is garbage, and the load yields exactly the two keys. -/
theorem c4_witness :
    (toyCrypto.parseAuthLine [42, 1] = some (toyPubKey 1) ∧
     toyCrypto.parseAuthLine [42, 2] = some (toyPubKey 2) ∧
     toyCrypto.parseAuthLine [7] = none ∧
     toyCrypto.fingerprintSHA256 (toyPubKey 1) ≠ toyCrypto.fingerprintSHA256 (toyPubKey 2)) ∧
    loadAuthorizedKeys toyCrypto (.content [[42, 1], [7], [42, 2]]) =
      .ok [(toyCrypto.fingerprintSHA256 (toyPubKey 1), toyPubKey 1),
           (toyCrypto.fingerprintSHA256 (toyPubKey 2), toyPubKey 2)] :=
  ⟨⟨by decide, by decide, by decide, by decide⟩,
   (c4_load_authorized_keys_tolerant toyCrypto [42, 1] [42, 2] [7]
     (toyPubKey 1) (toyPubKey 2) (by decide) (by decide) (by decide)
     (by decide)).2.2.1⟩

/-- C8 counterexample: "the first existing, parseable file wins" fails.
In the concrete toy filesystem the program-specific key exists but does not
parse while `~/.ssh/id_ed25519` exists and parses; `getSigner` (with no
`--key` flag) fails with a parse error instead of using the parseable
candidate. -/
theorem c8_counterexample :
    cexExists (programKeyPath cexHome) = true ∧
    cexExists (sshKeyPath cexHome "id_ed25519") = true ∧
    toyParsePrivateKey ((cexReadFile (sshKeyPath cexHome "id_ed25519")).getD []) =
      some 7 ∧
    getSigner toyCrypto "" cexExists cexReadFile toyParsePrivateKey cexHome =
      .error "could not parse private key" := by
  refine ⟨by decide, by decide, by decide, ?_⟩
  simp [getSigner, findPrivateKey, cexExists, cexReadFile, toyParsePrivateKey,
    programKeyPath, cexHome]

/-- C8 amended: the client resolves its signing key in priority order —
explicit `--key` path (used unconditionally when supplied), then the
program-specific key, then the conventional default SSH key names — and the
first *existing* candidate is selected; if the selected file fails to
parse, the operation fails with a parse error rather than trying later
candidates; if no candidate exists, the operation fails with the "no usable
key" error and no network request is attempted. -/
theorem c8_key_discovery_priority (C : SSHCrypto)
    (fexists : String → Bool) (readFile : String → Option Bytes)
    (parsePrivateKey : Bytes → Option C.Signer) (home : String) (data : Bytes) :
    -- explicit path wins unconditionally
    (∀ keyPath b sg, keyPath ≠ "" → readFile keyPath = some b →
      parsePrivateKey b = some sg →
      getSigner C keyPath fexists readFile parsePrivateKey home = .ok sg) ∧
    -- then the program-specific key
    (fexists (programKeyPath home) = true →
      findPrivateKey fexists home = .ok (programKeyPath home)) ∧
    -- then the default SSH keys, in their fixed order
    (fexists (programKeyPath home) = false →
      fexists (sshKeyPath home "id_ed25519") = true →
      findPrivateKey fexists home = .ok (sshKeyPath home "id_ed25519")) ∧
    (fexists (programKeyPath home) = false →
      fexists (sshKeyPath home "id_ed25519") = false →
      fexists (sshKeyPath home "id_ecdsa") = true →
      findPrivateKey fexists home = .ok (sshKeyPath home "id_ecdsa")) ∧
    (fexists (programKeyPath home) = false →
      fexists (sshKeyPath home "id_ed25519") = false →
      fexists (sshKeyPath home "id_ecdsa") = false →
      fexists (sshKeyPath home "id_rsa") = true →
      findPrivateKey fexists home = .ok (sshKeyPath home "id_rsa")) ∧
    -- a parse failure of the selected file is fatal, with no fallthrough
    (∀ b, fexists (programKeyPath home) = true →
      readFile (programKeyPath home) = some b → parsePrivateKey b = none →
      getSigner C "" fexists readFile parsePrivateKey home =
        .error "could not parse private key") ∧
    -- no candidate at all: the "no usable key" error, before any network
    (fexists (programKeyPath home) = false →
      (∀ name, name ∈ defaultKeys → fexists (sshKeyPath home name) = false) →
      getSigner C "" fexists readFile parsePrivateKey home = .error noKeyError ∧
      doHTTPSRequest C "" fexists readFile parsePrivateKey home data =
        .failedBeforeNetwork noKeyError) := by
  refine ⟨?_, ?_, ?_, ?_, ?_, ?_, ?_⟩
  · intro keyPath b sg hk hr hp
    simp [getSigner, hk, hr, hp]
  · intro hp
    simp [findPrivateKey, hp]
  · intro hp h1
    simp [findPrivateKey, findFirstExisting, defaultKeys, hp, h1]
  · intro hp h1 h2
    simp [findPrivateKey, findFirstExisting, defaultKeys, hp, h1, h2]
  · intro hp h1 h2 h3
    simp [findPrivateKey, findFirstExisting, defaultKeys, hp, h1, h2, h3]
  · intro b hp hr hparse
    simp [getSigner, findPrivateKey, hp, hr, hparse]
  · intro hp hd
    have h1 := hd "id_ed25519" (by simp [defaultKeys])
    have h2 := hd "id_ecdsa" (by simp [defaultKeys])
    have h3 := hd "id_rsa" (by simp [defaultKeys])
    constructor
    · simp [getSigner, findPrivateKey, findFirstExisting, defaultKeys, hp, h1, h2, h3]
    · simp [doHTTPSRequest, getSigner, findPrivateKey, findFirstExisting,
        defaultKeys, hp, h1, h2, h3]

/-- Witness for C8 (amended): with an empty filesystem, the client fails
with the "no usable key" error and sends nothing. -/
theorem c8_witness :
    emptyFS (programKeyPath cexHome) = false ∧
    getSigner toyCrypto "" emptyFS cexReadFile toyParsePrivateKey cexHome =
      .error noKeyError ∧
    doHTTPSRequest toyCrypto "" emptyFS cexReadFile toyParsePrivateKey cexHome [1] =
      .failedBeforeNetwork noKeyError :=
  ⟨by decide,
   ((c8_key_discovery_priority toyCrypto emptyFS cexReadFile toyParsePrivateKey
       cexHome [1]).2.2.2.2.2.2 (by decide) (fun name _ => by simp [emptyFS])).1,
   ((c8_key_discovery_priority toyCrypto emptyFS cexReadFile toyParsePrivateKey
       cexHome [1]).2.2.2.2.2.2 (by decide) (fun name _ => by simp [emptyFS])).2⟩

/-! ### Invariant lemmas for the clipboard manager -/

/-- `switchToFallback` preserves the manager invariant. -/
theorem switchToFallback_inv {s : ClipState} (h : ClipInv s) :
    ClipInv (switchToFallback s) := by
  obtain ⟨hflag, hnd, hbound⟩ := h
  unfold switchToFallback ClipInv
  by_cases huf : s.usingFallback
  · simp only [huf, if_true]
    exact ⟨by simp, hnd, hbound⟩
  · simp only [huf, Bool.false_eq_true, if_false]
    refine ⟨by simp, ?_, ?_⟩
    · refine List.Nodup.append hnd (List.nodup_singleton _) ?_
      intro a ha hb
      have := hbound a ha
      simp at hb
      omega
    · intro t ht
      rcases List.mem_append.mp ht with h' | h'
      · exact Nat.le_succ_of_le (hbound t h')
      · simp at h'
        omega

/-- The invariant ignores the two data buffers. -/
theorem clipInv_set_fallbackData {s : ClipState} (d : Bytes) (h : ClipInv s) :
    ClipInv { s with fallbackData := d } := h

/-- The invariant ignores the two data buffers. -/
theorem clipInv_set_primaryData {s : ClipState} (d : Bytes) (h : ClipInv s) :
    ClipInv { s with primaryData := d } := h

/-- `Copy` on the fallback path: write the in-memory buffer, report `nil`. -/
theorem Copy_fallback {s : ClipState} (resp : PrimaryResp) (data : Bytes)
    (h : s.usingFallback = true) :
    Copy s resp data = (.ok (), { s with fallbackData := data }) := by
  simp [Copy, h]

/-- `Copy` on a responsive primary: write the OS clipboard, report `nil`. -/
theorem Copy_primary_ok {s : ClipState} (data : Bytes)
    (h : s.usingFallback = false) :
    Copy s .ok data = (.ok (), { s with primaryData := data }) := by
  simp [Copy, h]

/-- `Copy` on a primary error: the error is returned, state unchanged. -/
theorem Copy_primary_err {s : ClipState} (e : String) (data : Bytes)
    (h : s.usingFallback = false) :
    Copy s (.err e) data = (.error e, s) := by
  simp [Copy, h]

/-- `Copy` on a primary timeout: switch to the fallback, retry the write
there, report `nil`. -/
theorem Copy_primary_hang {s : ClipState} (data : Bytes)
    (h : s.usingFallback = false) :
    Copy s .hang data = (.ok (), { switchToFallback s with fallbackData := data }) := by
  simp [Copy, h]

/-- `Paste` on the fallback path: read the in-memory buffer. -/
theorem Paste_fallback {s : ClipState} (resp : PrimaryResp)
    (h : s.usingFallback = true) :
    Paste s resp = (.ok s.fallbackData, s) := by
  simp [Paste, h]

/-- `Paste` on a responsive primary: read the OS clipboard. -/
theorem Paste_primary_ok {s : ClipState} (h : s.usingFallback = false) :
    Paste s .ok = (.ok s.primaryData, s) := by
  simp [Paste, h]

/-- `Paste` on a primary error: the error is returned, state unchanged. -/
theorem Paste_primary_err {s : ClipState} (e : String)
    (h : s.usingFallback = false) :
    Paste s (.err e) = (.error e, s) := by
  simp [Paste, h]

/-- `Paste` on a primary timeout: switch to the fallback and return its
buffer. -/
theorem Paste_primary_hang {s : ClipState} (h : s.usingFallback = false) :
    Paste s .hang = (.ok (switchToFallback s).fallbackData, switchToFallback s) := by
  simp [Paste, h]

/-- Every manager transition preserves the invariant. -/
theorem clipStep_inv {s s' : ClipState} (hs : ClipStep s s') (h : ClipInv s) :
    ClipInv s' := by
  obtain ⟨hflag, hnd, hbound⟩ := h
  cases hs with
  | copy resp data =>
    cases huf : s.usingFallback with
    | true =>
      rw [Copy_fallback resp data huf]
      exact clipInv_set_fallbackData _ ⟨hflag, hnd, hbound⟩
    | false =>
      cases resp with
      | ok =>
        rw [Copy_primary_ok data huf]
        exact clipInv_set_primaryData _ ⟨hflag, hnd, hbound⟩
      | err e =>
        rw [Copy_primary_err e data huf]
        exact ⟨hflag, hnd, hbound⟩
      | hang =>
        rw [Copy_primary_hang data huf]
        exact clipInv_set_fallbackData _ (switchToFallback_inv ⟨hflag, hnd, hbound⟩)
  | paste resp =>
    cases huf : s.usingFallback with
    | true =>
      rw [Paste_fallback resp huf]
      exact ⟨hflag, hnd, hbound⟩
    | false =>
      cases resp with
      | ok =>
        rw [Paste_primary_ok huf]
        exact ⟨hflag, hnd, hbound⟩
      | err e =>
        rw [Paste_primary_err e huf]
        exact ⟨hflag, hnd, hbound⟩
      | hang =>
        rw [Paste_primary_hang huf]
        exact switchToFallback_inv ⟨hflag, hnd, hbound⟩
  | useInMemory => exact ⟨by simp [UseInMemoryClipboard], hnd, hbound⟩
  | useCli => exact ⟨by simp [UseCliClipboard], hnd, hbound⟩
  | recover t ht =>
    refine ⟨by simp [switchToSystem], List.Nodup.erase t hnd, ?_⟩
    intro a ha
    exact hbound a (List.mem_of_mem_erase ha)
  | taskStop t ht =>
    refine ⟨hflag, List.Nodup.erase t hnd, ?_⟩
    intro a ha
    exact hbound a (List.mem_of_mem_erase ha)

/-- Every reachable manager state satisfies the invariant. -/
theorem clipReach_inv {s : ClipState} (h : ClipReach s) : ClipInv s := by
  induction h with
  | init s hi =>
    obtain ⟨hf, ht, he, hcase⟩ := hi
    refine ⟨?_, by simp [ht], by simp [ht]⟩
    rcases hcase with ⟨ha, hu⟩ | ⟨ha, hu⟩ | ⟨ha, hu⟩ <;> simp [ha, hu]
  | step s s' h hs ih => exact clipStep_inv hs ih

/-- C2: when a `Copy(data)` against the primary backend times out, the
manager switches to the in-memory fallback, stores `data` there, and `Copy`
reports success; a subsequent `Paste` takes the no-timeout fallback path
(its result does not depend on the primary's behaviour) and returns `data`.
Symmetrically, a `Paste` that times out switches to the fallback and
returns the fallback's contents. -/
theorem c2_timeout_failover (s : ClipState) (data : Bytes)
    (h : s.usingFallback = false) :
    (Copy s .hang data).1 = .ok () ∧
    (Copy s .hang data).2.usingFallback = true ∧
    (Copy s .hang data).2.activeK = .fallbackK ∧
    (Copy s .hang data).2.fallbackData = data ∧
    (∀ resp, Paste (Copy s .hang data).2 resp = (.ok data, (Copy s .hang data).2)) ∧
    (Paste s .hang).1 = .ok s.fallbackData ∧
    (Paste s .hang).2.usingFallback = true ∧
    (Paste s .hang).2.activeK = .fallbackK := by
  rw [Copy_primary_hang data h, Paste_primary_hang h]
  refine ⟨rfl, ?_, ?_, rfl, ?_, ?_, ?_, ?_⟩ <;>
    simp [Paste, switchToFallback, h]

/-- Witness for C2: from the initial primary state, a hanging `Copy`
succeeds, and the following `Paste` (whatever the primary would do)
returns the copied bytes. -/
theorem c2_witness :
    initClipState.usingFallback = false ∧
    (Copy initClipState .hang [1, 2]).1 = .ok () ∧
    Paste (Copy initClipState .hang [1, 2]).2 .hang =
      (.ok [1, 2], (Copy initClipState .hang [1, 2]).2) :=
  ⟨rfl, (c2_timeout_failover initClipState [1, 2] rfl).1,
   (c2_timeout_failover initClipState [1, 2] rfl).2.2.2.2.1 .hang⟩

/-- C5: at most one health-check task per failure episode (the running
tasks, identified by the failure episode that spawned them, are pairwise
distinct in every reachable state); `switchToFallback` spawns a task only
when the manager was not already using the fallback; and the only
transition from the fallback instance back to the primary backend is a
recovery step — a running task observing a successful probe, running
`switchToSystem` and terminating itself. -/
theorem c5_single_health_check_task (s : ClipState) (h : ClipReach s) :
    s.tasks.Nodup ∧
    (∀ s₀ : ClipState, s₀.usingFallback = true →
      (switchToFallback s₀).tasks = s₀.tasks) ∧
    (∀ s₀ : ClipState, s₀.usingFallback = false →
      (switchToFallback s₀).tasks = s₀.tasks ++ [s₀.episodes + 1]) ∧
    (∀ s', ClipStep s s' → s.activeK = .fallbackK → s'.activeK = .primaryK →
      ∃ t, t ∈ s.tasks ∧
        s' = { switchToSystem s with tasks := s.tasks.erase t }) := by
  refine ⟨(clipReach_inv h).2.1, ?_, ?_, ?_⟩
  · intro s₀ h₀
    simp [switchToFallback, h₀]
  · intro s₀ h₀
    simp [switchToFallback, h₀]
  · intro s' hs hf hp
    cases hs with
    | copy resp data =>
      have huf : s.usingFallback = true := (clipReach_inv h).1.mpr hf
      simp [Copy_fallback resp data huf, hf] at hp
    | paste resp =>
      have huf : s.usingFallback = true := (clipReach_inv h).1.mpr hf
      simp [Paste_fallback resp huf, hf] at hp
    | useInMemory => simp [UseInMemoryClipboard] at hp
    | useCli => simp [UseCliClipboard] at hp
    | recover t ht => exact ⟨t, ht, rfl⟩
    | taskStop t ht => simp [hf] at hp

/-- Witness for C5: the state reached by one timed-out `Copy` from the
initial primary state has (one task and) no duplicate tasks. -/
theorem c5_witness : (Copy initClipState .hang []).2.tasks.Nodup :=
  (c5_single_health_check_task _
    (ClipReach.step _ _
      (ClipReach.init _ ⟨rfl, rfl, rfl, Or.inl ⟨rfl, rfl⟩⟩)
      (ClipStep.copy _ .hang []))).1

/-- C6 counterexample: `Copy(X)` succeeding on the primary backend followed
by a `Paste()` that times out returns the stale fallback contents, not `X`,
with no intervening write.  Concretely: stale fallback `[9]`, `Copy [1]`
succeeds, `Paste` hangs and returns `[9] ≠ [1]`. -/
theorem c6_counterexample :
    (Copy cexClipState .ok [1]).1 = .ok () ∧
    (Paste (Copy cexClipState .ok [1]).2 .hang).1 = .ok [9] ∧
    (Paste (Copy cexClipState .ok [1]).2 .hang).1 ≠ .ok [1] := by
  refine ⟨?_, ?_, ?_⟩ <;> simp [Copy, Paste, switchToFallback, cexClipState]

/-- C6 amended: `Copy(X)` followed by `Paste()` with no intervening write
returns exactly `X` — for every byte sequence `X`, including the empty
one — provided no timeout-induced failover separates the two operations
(the `Paste` is served by the backend that received the write): this holds
unconditionally on the fallback path, on the primary path when both calls
respond, and when the `Copy` itself failed over (the write then landed in
the fallback that also serves the `Paste`). -/
theorem c6_roundtrip_same_backend (s : ClipState) (X : Bytes) :
    (s.usingFallback = true →
      ∀ resp resp', (Paste (Copy s resp X).2 resp').1 = .ok X) ∧
    (s.usingFallback = false →
      (Paste (Copy s .ok X).2 .ok).1 = .ok X) ∧
    (s.usingFallback = false →
      ∀ resp', (Paste (Copy s .hang X).2 resp').1 = .ok X) := by
  refine ⟨?_, ?_, ?_⟩
  · intro h resp resp'
    rw [Copy_fallback resp X h, Paste_fallback resp' (by simpa using h)]
  · intro h
    rw [Copy_primary_ok X h, Paste_primary_ok (by simpa using h)]
  · intro h resp'
    rw [Copy_primary_hang X h,
      Paste_fallback resp' (by simp [switchToFallback, h])]

/-- Witness for C6 (amended): concrete round trips through the fallback
(`[]` and `[1, 2]`) and through a responsive primary. -/
theorem c6_witness :
    (UseInMemoryClipboard initClipState).usingFallback = true ∧
    (Paste (Copy (UseInMemoryClipboard initClipState) .ok [1, 2]).2 .ok).1 =
      .ok [1, 2] ∧
    (Paste (Copy (UseInMemoryClipboard initClipState) .ok []).2 .ok).1 = .ok [] ∧
    initClipState.usingFallback = false ∧
    (Paste (Copy initClipState .ok [255, 0]).2 .ok).1 = .ok [255, 0] :=
  ⟨rfl,
   (c6_roundtrip_same_backend (UseInMemoryClipboard initClipState) [1, 2]).1
     rfl .ok .ok,
   (c6_roundtrip_same_backend (UseInMemoryClipboard initClipState) []).1
     rfl .ok .ok,
   rfl,
   (c6_roundtrip_same_backend initClipState [255, 0]).2.1 rfl⟩

/-- C7: in every reachable manager state, `usingFallback` is true exactly
when the active backend is the dedicated in-memory fallback instance; and
each of the four transitions (`switchToFallback`, `switchToSystem`,
`UseInMemoryClipboard`, `UseCliClipboard`) preserves this property from any
state. -/
theorem c7_flag_tracks_fallback (s : ClipState) (h : ClipReach s) :
    (s.usingFallback = true ↔ s.activeK = .fallbackK) ∧
    ∀ s₀ : ClipState,
      ((switchToFallback s₀).usingFallback = true ↔
        (switchToFallback s₀).activeK = .fallbackK) ∧
      ((switchToSystem s₀).usingFallback = true ↔
        (switchToSystem s₀).activeK = .fallbackK) ∧
      ((UseInMemoryClipboard s₀).usingFallback = true ↔
        (UseInMemoryClipboard s₀).activeK = .fallbackK) ∧
      ((UseCliClipboard s₀).usingFallback = true ↔
        (UseCliClipboard s₀).activeK = .fallbackK) := by
  refine ⟨(clipReach_inv h).1, ?_⟩
  intro s₀
  refine ⟨?_, ?_, ?_, ?_⟩
  · unfold switchToFallback
    split <;> simp
  · simp [switchToSystem]
  · simp [UseInMemoryClipboard]
  · simp [UseCliClipboard]

/-- Witness for C7: the invariant holds at the state reached by a
timed-out `Copy` followed by a manual switch to the CLI backend. -/
theorem c7_witness :
    (UseCliClipboard (Copy initClipState .hang []).2).usingFallback = true ↔
      (UseCliClipboard (Copy initClipState .hang []).2).activeK = .fallbackK :=
  (c7_flag_tracks_fallback _
    (ClipReach.step _ _
      (ClipReach.step _ _
        (ClipReach.init _ ⟨rfl, rfl, rfl, Or.inl ⟨rfl, rfl⟩⟩)
        (ClipStep.copy _ .hang []))
      (ClipStep.useCli _))).1

/-- Shape analysis of `initCLIClipboard`: either no tool was found (flag
false, both argument lists empty) or a tool was found (flag true, both
argument lists non-empty). -/
theorem initCLIClipboard_cases (w : Bool) (hc : String → Bool) :
    initCLIClipboard w hc = ⟨false, [], []⟩ ∨
    ∃ p c, initCLIClipboard w hc = ⟨true, p, c⟩ ∧ p ≠ [] ∧ c ≠ [] := by
  unfold initCLIClipboard
  split
  · exact .inr ⟨_, _, rfl, by simp [wlpasteArgs], by simp [wlcopyArgs]⟩
  · split
    · exact .inr ⟨_, _, rfl, by simp [xclipPasteArgs], by simp [xclipCopyArgs]⟩
    · split
      · exact .inr ⟨_, _, rfl, by simp [xselPasteArgs], by simp [xselCopyArgs]⟩
      · split
        · exact .inr ⟨_, _, rfl, by simp [termuxPasteArgs], by simp [termuxCopyArgs]⟩
        · exact .inl rfl

/-- C10: when the availability flag is false, `ReadClipboardCLI` and
`WriteClipboardCLI` return the "no clipboard utilities available" error
without touching the argument arrays; and whenever `initCLIClipboard` sets
the flag, it has set both argument lists non-empty, so the `args[0]`
accesses in those functions never index an empty array. -/
theorem c10_cli_args_safe (w : Bool) (hc : String → Bool) (st : CLIState) :
    (st.CLIClipboardAvailable = false →
      ReadClipboardCLI st = .unavailable clipboardUnavailableErr ∧
      WriteClipboardCLI st = .unavailable clipboardUnavailableErr) ∧
    ((initCLIClipboard w hc).CLIClipboardAvailable = true →
      (initCLIClipboard w hc).pasteCmdArgs ≠ [] ∧
      (initCLIClipboard w hc).copyCmdArgs ≠ []) ∧
    ReadClipboardCLI (initCLIClipboard w hc) ≠ .panicIndexOutOfRange ∧
    WriteClipboardCLI (initCLIClipboard w hc) ≠ .panicIndexOutOfRange := by
  refine ⟨fun h => ⟨by simp [ReadClipboardCLI, h], by simp [WriteClipboardCLI, h]⟩,
    ?_, ?_, ?_⟩ <;>
  rcases initCLIClipboard_cases w hc with h | ⟨p, c, h, hp, hc'⟩ <;>
    rw [h]
  · intro hfl
    simp at hfl
  · intro _
    exact ⟨hp, hc'⟩
  · simp [ReadClipboardCLI]
  · cases p with
    | nil => exact absurd rfl hp
    | cons a as => simp [ReadClipboardCLI]
  · simp [WriteClipboardCLI]
  · cases c with
    | nil => exact absurd rfl hc'
    | cons a as => simp [WriteClipboardCLI]

/-- Witness for C10: with no tools on the path the read returns the
unavailable error, and with xclip present neither operation panics. -/
theorem c10_witness :
    ReadClipboardCLI (initCLIClipboard false (fun _ => false)) =
      .unavailable clipboardUnavailableErr ∧
    ReadClipboardCLI (initCLIClipboard false (fun t => t = "xclip")) ≠
      .panicIndexOutOfRange ∧
    WriteClipboardCLI (initCLIClipboard false (fun t => t = "xclip")) ≠
      .panicIndexOutOfRange :=
  ⟨((c10_cli_args_safe false (fun _ => false)
      (initCLIClipboard false (fun _ => false))).1 (by decide)).1,
   (c10_cli_args_safe false (fun t => t = "xclip")
      (initCLIClipboard false (fun t => t = "xclip"))).2.2.1,
   (c10_cli_args_safe false (fun t => t = "xclip")
      (initCLIClipboard false (fun t => t = "xclip"))).2.2.2⟩

end PB
